import Mathlib

/-!
# Signaling relay: session registry and routing state machine

Shallow embedding of the WebSocket signaling relay in `src/server.ts`.
The server keeps process-wide state (`broadcasterSocket`, `viewerSockets`,
each socket's `ws.data`), reacts to message and close events, and emits
sends and forcible closes.  Connections are modelled by natural-number
ids, wire payloads (`sdp`, `candidate`) by opaque strings, and the effect
of one event by a pure function returning the new state together with the
list of transport actions the handler issued, in issue order.

The `crypto.randomUUID()` viewer-identifier generator is modelled by a
counter in the state rendered with `toString`; the claims under study do
not depend on the shape of the generated identifiers, only on the rest of
the handler logic.
-/

namespace Relay

/-- Role of a connection, as in `type Role = "broadcaster" | "viewer"`. -/
inductive Role where
  | broadcaster
  | viewer
deriving DecidableEq, Repr

/-- Per-socket data, as in `type ConnectionData = { role?: Role; viewerId?: string }`. -/
structure ConnData where
  role : Option Role := none
  viewerId : Option String := none
deriving DecidableEq, Repr

/-- Server-to-client messages (§6 wire shapes), with opaque payloads as strings. -/
inductive SMsg where
  | registeredB
  | registeredV (viewerId : String) (hasBroadcaster : Bool)
  | viewerJoined (viewerId : String)
  | viewerLeft (viewerId : String)
  | viewerMissing (viewerId : String)
  | offer (viewerId : String) (sdp : String)
  | answer (viewerId : String) (sdp : String)
  | candidate (viewerId : String) (cand : String) (origin : Role)
  | viewerCount (count : Nat)
  | broadcasterEnded
  | stopped
  | error (message : String)
deriving DecidableEq, Repr

/-- A transport-level action issued by a handler: `ws.send(...)` or `ws.close()`. -/
inductive Action where
  | send (conn : Nat) (msg : SMsg)
  | close (conn : Nat)
deriving DecidableEq, Repr

/-- Outcome of decoding and `JSON.parse`-ing one inbound frame.  `invalid`
models a frame on which `JSON.parse` throws (carrying the thrown message);
`unknownType` models a frame that parses as JSON but whose `type` is none of
the known ones, which falls into the `default:` branch of the switch. -/
inductive RawMsg where
  | invalid (err : String)
  | unknownType
  | register (role : Role)
  | offer (viewerId : String) (sdp : String)
  | answer (viewerId : String) (sdp : String)
  | candidate (viewerId : String) (cand : String) (origin : Role)
  | stop
deriving DecidableEq, Repr

/-- An external event delivered to the server: an inbound message frame or a
channel-close notification for a connection. -/
inductive Event where
  | msg (conn : Nat) (raw : RawMsg)
  | close (conn : Nat)
deriving DecidableEq, Repr

/-- Association-list lookup, modelling `Map.prototype.get`. -/
def mapGet {α β : Type} [DecidableEq α] : List (α × β) → α → Option β
  | [], _ => none
  | (k, v) :: rest, k0 => if k = k0 then some v else mapGet rest k0

/-- Association-list insert/replace, modelling `Map.prototype.set` (an existing
key keeps its insertion position; a new key is appended). -/
def mapSet {α β : Type} [DecidableEq α] : List (α × β) → α → β → List (α × β)
  | [], k0, v0 => [(k0, v0)]
  | (k, v) :: rest, k0, v0 =>
    if k = k0 then (k0, v0) :: rest else (k, v) :: mapSet rest k0 v0

/-- Association-list removal, modelling `Map.prototype.delete`. -/
def mapDelete {α β : Type} [DecidableEq α] : List (α × β) → α → List (α × β)
  | [], _ => []
  | (k, v) :: rest, k0 => if k = k0 then rest else (k, v) :: mapDelete rest k0

/-- Process-wide server state: the module-level mutables of `server.ts`
(`broadcasterSocket`, `viewerSockets`), each connection's `ws.data`, the set
of connections whose channel is no longer open (`readyState !== OPEN`), and
the viewer-identifier generator counter. -/
structure ServerState where
  broadcasterSocket : Option Nat
  viewerSockets : List (String × Nat)
  connData : List (Nat × ConnData)
  closedConns : List Nat
  uuidCounter : Nat
deriving DecidableEq, Repr

/-- State at process start: empty registry, no data, every channel open. -/
def initialState : ServerState :=
  { broadcasterSocket := none, viewerSockets := [], connData := [],
    closedConns := [], uuidCounter := 0 }

/-- Whether a connection's channel is currently open (`readyState === WebSocket.OPEN`). -/
def ServerState.isOpen (st : ServerState) (c : Nat) : Bool :=
  decide (c ∉ st.closedConns)

/-- Read a connection's `ws.data` (initialized to `{}` on open). -/
def ServerState.getData (st : ServerState) (c : Nat) : ConnData :=
  (mapGet st.connData c).getD {}

/-- Overwrite a connection's `ws.data`. -/
def ServerState.setData (st : ServerState) (c : Nat) (d : ConnData) : ServerState :=
  { st with connData := mapSet st.connData c d }

/-- Error text sent to a superseded broadcaster in `handleRegister`. -/
def takeoverMessage : String := "Another broadcaster took over the session."

/-- Error text thrown by `ensureBroadcaster`. -/
def onlyBroadcasterMessage : String := "Only the broadcaster may perform this action"

/-- Error text thrown by `ensureViewer`. -/
def onlyViewerMessage : String := "Only a registered viewer may perform this action"

/-- The boolean test of `ensureViewer`: role is `viewer` and `ws.data.viewerId`
is a truthy (non-empty) string. -/
def viewerOk (d : ConnData) : Bool :=
  decide (d.role = some Role.viewer) && decide (d.viewerId.getD "" ≠ "")

/-- The `broadcastViewerCount` helper: send `viewer-count` with the current map
size to every viewer, and to the broadcaster when present and open. -/
def broadcastViewerCount (st : ServerState) : List Action :=
  st.viewerSockets.map (fun p => Action.send p.2 (SMsg.viewerCount st.viewerSockets.length)) ++
    match st.broadcasterSocket with
    | some b =>
      if st.isOpen b then [Action.send b (SMsg.viewerCount st.viewerSockets.length)] else []
    | none => []

/-- Tail of the broadcaster registration path, shared by all guard outcomes:
assign `role`, install the socket as `broadcasterSocket`, confirm with
`registered`, then send the newcomer one `viewer-joined` per current map key. -/
def finishRegisterBroadcaster (st : ServerState) (ws : Nat) (pre : List Action) :
    ServerState × List Action :=
  ({ st.setData ws { st.getData ws with role := some Role.broadcaster } with
      broadcasterSocket := some ws },
   pre ++ Action.send ws SMsg.registeredB ::
     st.viewerSockets.map (fun p => Action.send ws (SMsg.viewerJoined p.1)))

/-- `handleRegister`, broadcaster branch: when a broadcaster socket is present
and its channel is open, send it the takeover error and close it, then run the
common tail. -/
def handleRegisterBroadcaster (st : ServerState) (ws : Nat) : ServerState × List Action :=
  match st.broadcasterSocket with
  | some old =>
    if st.isOpen old then
      finishRegisterBroadcaster { st with closedConns := old :: st.closedConns } ws
        [Action.send old (SMsg.error takeoverMessage), Action.close old]
    else
      finishRegisterBroadcaster st ws []
  | none => finishRegisterBroadcaster st ws []

/-- `handleRegister`, viewer branch: generate a fresh identifier, assign
`role`/`viewerId`, insert into the map, confirm with `registered` (carrying
`hasBroadcaster`), notify a present broadcaster with `viewer-joined`, then
broadcast the viewer count. -/
def handleRegisterViewer (st : ServerState) (ws : Nat) : ServerState × List Action :=
  let viewerId := toString st.uuidCounter
  let st1 := { st with uuidCounter := st.uuidCounter + 1 }
  let st2 := st1.setData ws { role := some Role.viewer, viewerId := some viewerId }
  let st3 := { st2 with viewerSockets := mapSet st2.viewerSockets viewerId ws }
  (st3,
   Action.send ws (SMsg.registeredV viewerId st3.broadcasterSocket.isSome) ::
     (match st3.broadcasterSocket with
      | some b => [Action.send b (SMsg.viewerJoined viewerId)]
      | none => []) ++ broadcastViewerCount st3)

/-- `handleRegister(ws, role)`: dispatch on the requested role.  Note the
source applies no guard on an already-assigned role. -/
def handleRegister (st : ServerState) (ws : Nat) (role : Role) : ServerState × List Action :=
  match role with
  | Role.broadcaster => handleRegisterBroadcaster st ws
  | Role.viewer => handleRegisterViewer st ws

/-- `forwardOffer`: deliver to the named viewer if present, else tell the
broadcaster (optional chaining) that the viewer is missing. -/
def forwardOffer (st : ServerState) (viewerId sdp : String) : List Action :=
  match mapGet st.viewerSockets viewerId with
  | some vws => [Action.send vws (SMsg.offer viewerId sdp)]
  | none =>
    match st.broadcasterSocket with
    | some b => [Action.send b (SMsg.viewerMissing viewerId)]
    | none => []

/-- `forwardAnswer`: deliver to the broadcaster if one is registered, else drop. -/
def forwardAnswer (st : ServerState) (viewerId sdp : String) : List Action :=
  match st.broadcasterSocket with
  | some b => [Action.send b (SMsg.answer viewerId sdp)]
  | none => []

/-- `forwardCandidateToViewer`: optional-chained send to the named viewer. -/
def forwardCandidateToViewer (st : ServerState) (viewerId cand : String) : List Action :=
  match mapGet st.viewerSockets viewerId with
  | some vws => [Action.send vws (SMsg.candidate viewerId cand Role.broadcaster)]
  | none => []

/-- `forwardCandidateToBroadcaster`: optional-chained send to the broadcaster. -/
def forwardCandidateToBroadcaster (st : ServerState) (viewerId cand : String) : List Action :=
  match st.broadcasterSocket with
  | some b => [Action.send b (SMsg.candidate viewerId cand Role.viewer)]
  | none => []

/-- The per-viewer loop body of the broadcaster-loss and stop cascades:
`viewerWs.send({type:"broadcaster-ended"}); viewerWs.close()` over the map in
insertion order. -/
def endedCloseActs : List (String × Nat) → List Action
  | [] => []
  | p :: rest => Action.send p.2 SMsg.broadcasterEnded :: Action.close p.2 :: endedCloseActs rest

/-- `stopBroadcast`: no-op without a broadcaster; otherwise end every viewer,
clear the map, confirm `stopped` to the broadcaster, broadcast the count. -/
def stopBroadcast (st : ServerState) : ServerState × List Action :=
  match st.broadcasterSocket with
  | none => (st, [])
  | some b =>
    let st1 := { st with
      viewerSockets := [],
      closedConns := st.viewerSockets.map Prod.snd ++ st.closedConns }
    (st1, endedCloseActs st.viewerSockets ++ Action.send b SMsg.stopped :: broadcastViewerCount st1)

/-- The `close(ws)` websocket handler: broadcaster loss cascades to every
viewer; viewer loss notifies the broadcaster and rebroadcasts the count. -/
def handleClose (st : ServerState) (ws : Nat) : ServerState × List Action :=
  match (st.getData ws).role with
  | some Role.broadcaster =>
    let st1 := { st with
      broadcasterSocket := none,
      viewerSockets := [],
      closedConns := st.viewerSockets.map Prod.snd ++ st.closedConns }
    (st1, endedCloseActs st.viewerSockets ++ broadcastViewerCount st1)
  | some Role.viewer =>
    match (st.getData ws).viewerId with
    | some vid =>
      if vid = "" then (st, [])
      else
        let st1 := { st with viewerSockets := mapDelete st.viewerSockets vid }
        (st1,
         (match st1.broadcasterSocket with
          | some b => [Action.send b (SMsg.viewerLeft vid)]
          | none => []) ++ broadcastViewerCount st1)
    | none => (st, [])
  | none => (st, [])

/-- The `message(ws, rawMessage)` websocket handler, with the `try`/`catch`
folded in: an `ensure*` throw or a `JSON.parse` throw becomes an `error` send
to the sender; an unknown message type only logs a warning. -/
def handleMessage (st : ServerState) (ws : Nat) (m : RawMsg) : ServerState × List Action :=
  match m with
  | RawMsg.invalid err => (st, [Action.send ws (SMsg.error err)])
  | RawMsg.unknownType => (st, [])
  | RawMsg.register role => handleRegister st ws role
  | RawMsg.offer vid sdp =>
    if (st.getData ws).role = some Role.broadcaster then (st, forwardOffer st vid sdp)
    else (st, [Action.send ws (SMsg.error onlyBroadcasterMessage)])
  | RawMsg.answer vid sdp =>
    if viewerOk (st.getData ws) then (st, forwardAnswer st vid sdp)
    else (st, [Action.send ws (SMsg.error onlyViewerMessage)])
  | RawMsg.candidate vid cand origin =>
    match origin with
    | Role.broadcaster =>
      if (st.getData ws).role = some Role.broadcaster then
        (st, forwardCandidateToViewer st vid cand)
      else (st, [Action.send ws (SMsg.error onlyBroadcasterMessage)])
    | Role.viewer =>
      if viewerOk (st.getData ws) then (st, forwardCandidateToBroadcaster st vid cand)
      else (st, [Action.send ws (SMsg.error onlyViewerMessage)])
  | RawMsg.stop =>
    if (st.getData ws).role = some Role.broadcaster then stopBroadcast st
    else (st, [Action.send ws (SMsg.error onlyBroadcasterMessage)])

/-- One external event: a close notification first records that the channel is
no longer open, then runs the close handler. -/
def step (st : ServerState) (e : Event) : ServerState × List Action :=
  match e with
  | Event.msg ws m => handleMessage st ws m
  | Event.close ws => handleClose { st with closedConns := ws :: st.closedConns } ws

/-- New state after one broadcaster registration. -/
def registerB (st : ServerState) (ws : Nat) : ServerState :=
  (handleRegister st ws Role.broadcaster).1

/-- New state after a sequence of broadcaster registrations, in order. -/
def registerAll (st : ServerState) (cs : List Nat) : ServerState :=
  cs.foldl registerB st

/-- Number of occurrences of one action in a trace. -/
def countAct (l : List Action) (a : Action) : Nat :=
  l.countP (fun x => decide (x = a))

lemma countAct_append (l1 l2 : List Action) (a : Action) :
    countAct (l1 ++ l2) a = countAct l1 a + countAct l2 a := by
  simp [countAct, List.countP_append]

lemma countAct_singleton (a : Action) : countAct [a] a = 1 := by
  simp [countAct]

lemma countAct_cons_self (a : Action) (l : List Action) :
    countAct (a :: l) a = countAct l a + 1 := by
  simp [countAct, List.countP_cons]

lemma countAct_cons_ne (b a : Action) (l : List Action) (h : b ≠ a) :
    countAct (b :: l) a = countAct l a := by
  simp [countAct, List.countP_cons, h]

lemma countAct_eq_zero (l : List Action) (a : Action) (h : a ∉ l) : countAct l a = 0 := by
  rw [countAct, List.countP_eq_zero]
  intro x hx
  simp only [decide_eq_true_eq]
  intro he
  exact h (he ▸ hx)

lemma mapGet_mapSet_self {α β : Type} [DecidableEq α] (l : List (α × β)) (k : α) (v : β) :
    mapGet (mapSet l k v) k = some v := by
  induction l with
  | nil => simp [mapSet, mapGet]
  | cons q rest ih =>
    obtain ⟨qk, qv⟩ := q
    by_cases h : qk = k
    · simp [mapSet, h, mapGet]
    · simp [mapSet, h, mapGet, ih]

lemma mapGet_eq_none_of_not_mem {α β : Type} [DecidableEq α] (l : List (α × β)) (k : α)
    (h : k ∉ l.map Prod.fst) : mapGet l k = none := by
  induction l with
  | nil => rfl
  | cons q rest ih =>
    obtain ⟨qk, qv⟩ := q
    simp only [List.map_cons, List.mem_cons] at h
    push_neg at h
    rw [mapGet, if_neg (Ne.symm h.1)]
    exact ih h.2

lemma mapGet_mapDelete_self {α β : Type} [DecidableEq α] (l : List (α × β)) (k : α)
    (hnd : (l.map Prod.fst).Nodup) : mapGet (mapDelete l k) k = none := by
  induction l with
  | nil => rfl
  | cons q rest ih =>
    obtain ⟨qk, qv⟩ := q
    simp only [List.map_cons, List.nodup_cons] at hnd
    by_cases h : qk = k
    · rw [mapDelete, if_pos h]
      exact mapGet_eq_none_of_not_mem rest k (h ▸ hnd.1)
    · rw [mapDelete, if_neg h]
      rw [mapGet, if_neg h]
      exact ih hnd.2

lemma mapDelete_length {α β : Type} [DecidableEq α] (l : List (α × β)) (k : α)
    (h : k ∈ l.map Prod.fst) : (mapDelete l k).length + 1 = l.length := by
  induction l with
  | nil => cases h
  | cons q rest ih =>
    obtain ⟨qk, qv⟩ := q
    by_cases hq : qk = k
    · simp [mapDelete, hq]
    · simp only [List.map_cons, List.mem_cons] at h
      rcases h with h | h
      · exact absurd h.symm hq
      · simp [mapDelete, hq, ih h]

lemma getData_setData_self (st : ServerState) (c : Nat) (d : ConnData) :
    (st.setData c d).getData c = d := by
  simp [ServerState.getData, ServerState.setData, mapGet_mapSet_self]

lemma mem_endedCloseActs_send (l : List (String × Nat)) (p : String × Nat) (h : p ∈ l) :
    Action.send p.2 SMsg.broadcasterEnded ∈ endedCloseActs l := by
  induction l with
  | nil => cases h
  | cons q rest ih =>
    rcases List.mem_cons.1 h with rfl | h2
    · exact List.mem_cons_self _ _
    · exact List.mem_cons_of_mem _ (List.mem_cons_of_mem _ (ih h2))

lemma mem_endedCloseActs_close (l : List (String × Nat)) (p : String × Nat) (h : p ∈ l) :
    Action.close p.2 ∈ endedCloseActs l := by
  induction l with
  | nil => cases h
  | cons q rest ih =>
    rcases List.mem_cons.1 h with rfl | h2
    · exact List.mem_cons_of_mem _ (List.mem_cons_self _ _)
    · exact List.mem_cons_of_mem _ (List.mem_cons_of_mem _ (ih h2))

lemma mem_endedCloseActs_shape (l : List (String × Nat)) (a : Action)
    (h : a ∈ endedCloseActs l) :
    ∃ v ∈ l.map Prod.snd, a = Action.send v SMsg.broadcasterEnded ∨ a = Action.close v := by
  induction l with
  | nil => cases h
  | cons q rest ih =>
    rcases List.mem_cons.1 h with rfl | h2
    · exact ⟨q.2, by simp, Or.inl rfl⟩
    · rcases List.mem_cons.1 h2 with rfl | h3
      · exact ⟨q.2, by simp, Or.inr rfl⟩
      · obtain ⟨v, hv, hav⟩ := ih h3
        exact ⟨v, by simp [hv], hav⟩

lemma countAct_endedClose_send_zero (l : List (String × Nat)) (v : Nat)
    (h : v ∉ l.map Prod.snd) :
    countAct (endedCloseActs l) (Action.send v SMsg.broadcasterEnded) = 0 := by
  refine countAct_eq_zero _ _ ?_
  intro hmem
  obtain ⟨w, hw, haw⟩ := mem_endedCloseActs_shape l _ hmem
  rcases haw with he | he
  · obtain rfl : v = w := by injection he
    exact h hw
  · cases he

lemma countAct_endedClose_send_one (l : List (String × Nat)) (v : Nat)
    (hnd : (l.map Prod.snd).Nodup) (h : v ∈ l.map Prod.snd) :
    countAct (endedCloseActs l) (Action.send v SMsg.broadcasterEnded) = 1 := by
  induction l with
  | nil => cases h
  | cons q rest ih =>
    simp only [List.map_cons, List.nodup_cons] at hnd
    rw [endedCloseActs]
    rcases List.mem_cons.1 h with rfl | h2
    · rw [countAct_cons_self, countAct_cons_ne _ _ _ (by simp),
        countAct_endedClose_send_zero rest q.2 hnd.1]
    · have hne : q.2 ≠ v := fun he => hnd.1 (he ▸ h2)
      rw [countAct_cons_ne _ _ _ (by simp [hne]), countAct_cons_ne _ _ _ (by simp)]
      exact ih hnd.2 h2

lemma close_not_mem_endedCloseActs (l : List (String × Nat)) (b : Nat)
    (h : b ∉ l.map Prod.snd) : Action.close b ∉ endedCloseActs l := by
  intro hmem
  obtain ⟨w, hw, haw⟩ := mem_endedCloseActs_shape l _ hmem
  rcases haw with he | he
  · cases he
  · obtain rfl : b = w := by injection he
    exact h hw

lemma mem_bvc_shape (st : ServerState) (a : Action) (h : a ∈ broadcastViewerCount st) :
    ∃ c, a = Action.send c (SMsg.viewerCount st.viewerSockets.length) := by
  unfold broadcastViewerCount at h
  rcases List.mem_append.1 h with h1 | h2
  · obtain ⟨p, _, rfl⟩ := List.mem_map.1 h1
    exact ⟨p.2, rfl⟩
  · cases hb : st.broadcasterSocket with
    | none => simp only [hb] at h2; cases h2
    | some b =>
      simp only [hb] at h2
      by_cases ho : st.isOpen b = true
      · rw [if_pos ho] at h2
        rcases List.mem_singleton.1 h2 with rfl
        exact ⟨b, rfl⟩
      · rw [if_neg ho] at h2
        cases h2

lemma bvc_mem_viewer (st : ServerState) (p : String × Nat) (h : p ∈ st.viewerSockets) :
    Action.send p.2 (SMsg.viewerCount st.viewerSockets.length) ∈ broadcastViewerCount st :=
  List.mem_append_left _ (List.mem_map_of_mem _ h)

lemma bvc_mem_broadcaster (st : ServerState) (b : Nat) (hb : st.broadcasterSocket = some b)
    (ho : st.isOpen b = true) :
    Action.send b (SMsg.viewerCount st.viewerSockets.length) ∈ broadcastViewerCount st := by
  unfold broadcastViewerCount
  refine List.mem_append_right _ ?_
  simp only [hb, if_pos ho]
  exact List.mem_singleton.2 rfl

lemma isOpen_eq_false_iff (st : ServerState) (c : Nat) :
    st.isOpen c = false ↔ c ∈ st.closedConns := by
  simp [ServerState.isOpen]

lemma isOpen_eq_true_iff (st : ServerState) (c : Nat) :
    st.isOpen c = true ↔ c ∉ st.closedConns := by
  simp [ServerState.isOpen]

lemma finish_slot (st : ServerState) (ws : Nat) (pre : List Action) :
    (finishRegisterBroadcaster st ws pre).1.broadcasterSocket = some ws := rfl

lemma finish_closed (st : ServerState) (ws : Nat) (pre : List Action) :
    (finishRegisterBroadcaster st ws pre).1.closedConns = st.closedConns := rfl

lemma registerB_eq (st : ServerState) (ws : Nat) :
    registerB st ws = (handleRegisterBroadcaster st ws).1 := rfl

lemma registerB_slot (st : ServerState) (ws : Nat) :
    (registerB st ws).broadcasterSocket = some ws := by
  rw [registerB_eq]
  unfold handleRegisterBroadcaster
  split
  · split
    · exact finish_slot _ _ _
    · exact finish_slot _ _ _
  · exact finish_slot _ _ _

lemma registerB_closed_mono (st : ServerState) (ws c : Nat) (h : c ∈ st.closedConns) :
    c ∈ (registerB st ws).closedConns := by
  rw [registerB_eq]
  unfold handleRegisterBroadcaster
  split
  · split
    · rw [finish_closed]
      exact List.mem_cons_of_mem _ h
    · rw [finish_closed]
      exact h
  · rw [finish_closed]
    exact h

lemma registerB_closes_incumbent (st : ServerState) (ws old : Nat)
    (h : st.broadcasterSocket = some old) : old ∈ (registerB st ws).closedConns := by
  rw [registerB_eq]
  unfold handleRegisterBroadcaster
  rw [h]
  cases ho : st.isOpen old with
  | false =>
    have hmem : old ∈ st.closedConns := (isOpen_eq_false_iff st old).1 ho
    simp only [ho, Bool.false_eq_true, if_false, finish_closed]
    exact hmem
  | true =>
    simp only [ho, if_true, finish_closed]
    exact List.mem_cons_self _ _

lemma registerAll_cons (st : ServerState) (c : Nat) (cs : List Nat) :
    registerAll st (c :: cs) = registerAll (registerB st c) cs := rfl

lemma registerAll_closed_mono (cs : List Nat) : ∀ (st : ServerState) (c : Nat),
    c ∈ st.closedConns → c ∈ (registerAll st cs).closedConns := by
  induction cs with
  | nil => intro st c h; exact h
  | cons d rest ih =>
    intro st c h
    exact ih _ _ (registerB_closed_mono _ _ _ h)

lemma registerAll_closes (cs : List Nat) (hne : cs ≠ []) (st : ServerState) (c : Nat)
    (h : st.broadcasterSocket = some c) : c ∈ (registerAll st cs).closedConns := by
  cases cs with
  | nil => exact absurd rfl hne
  | cons d rest =>
    rw [registerAll_cons]
    exact registerAll_closed_mono rest _ _ (registerB_closes_incumbent st d c h)

lemma registerAll_spec (cs : List Nat) : ∀ (st : ServerState) (lastc : Nat),
    cs.getLast? = some lastc →
    (registerAll st cs).broadcasterSocket = some lastc ∧
    ∀ c ∈ cs, c ≠ lastc → c ∈ (registerAll st cs).closedConns := by
  induction cs with
  | nil => intro st lastc h; simp at h
  | cons d rest ih =>
    intro st lastc h
    cases rest with
    | nil =>
      simp only [List.getLast?_singleton, Option.some.injEq] at h
      subst h
      refine ⟨registerB_slot st d, ?_⟩
      intro c hc hne
      simp only [List.mem_singleton] at hc
      exact absurd hc hne
    | cons e rest2 =>
      have h2 : (e :: rest2).getLast? = some lastc := by
        rwa [List.getLast?_cons_cons] at h
      have ihh := ih (registerB st d) lastc h2
      refine ⟨ihh.1, ?_⟩
      intro c hc hne
      rcases List.mem_cons.1 hc with rfl | hmem
      · exact registerAll_closes (e :: rest2) (by simp) (registerB st c) c (registerB_slot st c)
      · exact ihh.2 c hmem hne

/-- C1: after each register(broadcaster) event the broadcaster slot holds
exactly the most recent registrant; a live incumbent is first sent the
takeover notice and forcibly closed, before the newcomer is confirmed; hence
over any sequence of register(broadcaster) events from the initial state, at
most the most recent registrant is live — every other one has been closed. -/
theorem c1_broadcaster_takeover :
    (∀ (st : ServerState) (ws old : Nat),
      st.broadcasterSocket = some old → st.isOpen old = true →
      (handleRegister st ws Role.broadcaster).1.broadcasterSocket = some ws ∧
      (handleRegister st ws Role.broadcaster).1.isOpen old = false ∧
      (handleRegister st ws Role.broadcaster).2 =
        Action.send old (SMsg.error takeoverMessage) :: Action.close old ::
          Action.send ws SMsg.registeredB ::
          st.viewerSockets.map (fun p => Action.send ws (SMsg.viewerJoined p.1))) ∧
    (∀ (cs : List Nat) (lastc : Nat), cs.getLast? = some lastc →
      (registerAll initialState cs).broadcasterSocket = some lastc ∧
      ∀ c ∈ cs, c ≠ lastc → (registerAll initialState cs).isOpen c = false) := by
  constructor
  · intro st ws old h ho
    refine ⟨?_, ?_, ?_⟩
    · simp [handleRegister, handleRegisterBroadcaster, h, ho, finish_slot]
    · refine (isOpen_eq_false_iff _ _).2 ?_
      have hstep : (handleRegister st ws Role.broadcaster).1.closedConns = old :: st.closedConns := by
        simp [handleRegister, handleRegisterBroadcaster, h, ho, finishRegisterBroadcaster,
          ServerState.setData]
      rw [hstep]
      exact List.mem_cons_self _ _
    · simp [handleRegister, handleRegisterBroadcaster, h, ho, finishRegisterBroadcaster,
        ServerState.setData]
  · intro cs lastc h
    obtain ⟨h1, h2⟩ := registerAll_spec cs initialState lastc h
    exact ⟨h1, fun c hc hne => (isOpen_eq_false_iff _ _).2 (h2 c hc hne)⟩

/-- Witness for C1 at concrete inputs: broadcaster 1 is registered and open
with no viewers, broadcaster 2 takes over; and after registrations 5 then 7
from the initial state, the slot holds 7 and 5 is closed. -/
theorem c1_broadcaster_takeover_witness :
    ((handleRegister
        { broadcasterSocket := some 1, viewerSockets := [],
          connData := [(1, { role := some Role.broadcaster, viewerId := none })],
          closedConns := [], uuidCounter := 0 } 2 Role.broadcaster).1.broadcasterSocket =
        some 2 ∧
      (handleRegister
        { broadcasterSocket := some 1, viewerSockets := [],
          connData := [(1, { role := some Role.broadcaster, viewerId := none })],
          closedConns := [], uuidCounter := 0 } 2 Role.broadcaster).1.isOpen 1 = false ∧
      (handleRegister
        { broadcasterSocket := some 1, viewerSockets := [],
          connData := [(1, { role := some Role.broadcaster, viewerId := none })],
          closedConns := [], uuidCounter := 0 } 2 Role.broadcaster).2 =
        [Action.send 1 (SMsg.error takeoverMessage), Action.close 1,
          Action.send 2 SMsg.registeredB]) ∧
    ((registerAll initialState [5, 7]).broadcasterSocket = some 7 ∧
      (registerAll initialState [5, 7]).isOpen 5 = false) := by
  have h1 := c1_broadcaster_takeover.1
    { broadcasterSocket := some 1, viewerSockets := [],
      connData := [(1, { role := some Role.broadcaster, viewerId := none })],
      closedConns := [], uuidCounter := 0 } 2 1 rfl (by decide)
  have h2 := c1_broadcaster_takeover.2 [5, 7] 7 rfl
  exact ⟨⟨h1.1, h1.2.1, by simpa using h1.2.2⟩, h2.1, h2.2 5 (by decide) (by decide)⟩

/-- Registry after a takeover: connection 1 is a superseded broadcaster whose
channel the server already closed, connection 2 is the current broadcaster,
connection 3 a registered viewer. -/
def staleCloseState : ServerState :=
  { broadcasterSocket := some 2, viewerSockets := [("0", 3)],
    connData := [(1, { role := some Role.broadcaster, viewerId := none }),
                 (2, { role := some Role.broadcaster, viewerId := none }),
                 (3, { role := some Role.viewer, viewerId := some "0" })],
    closedConns := [1], uuidCounter := 1 }

/-- C2: the close handler keys only on the closing socket's role, so the stale
close event of superseded broadcaster 1 — which is not the currently
registered broadcaster 2 — nevertheless clears the broadcaster slot, empties
the viewer map and cascades broadcaster-ended to viewer 3, contrary to the
claimed takeover guard. -/
theorem c2_stale_close_clears_registry :
    staleCloseState.broadcasterSocket = some 2 ∧
    (step staleCloseState (Event.close 1)).1.broadcasterSocket = none ∧
    (step staleCloseState (Event.close 1)).1.viewerSockets = [] ∧
    (step staleCloseState (Event.close 1)).2 =
      [Action.send 3 SMsg.broadcasterEnded, Action.close 3] := by
  decide

/-- Registry with a single registered viewer, connection 2 under identifier
"0", and no broadcaster. -/
def reregisterState : ServerState :=
  { broadcasterSocket := none, viewerSockets := [("0", 2)],
    connData := [(2, { role := some Role.viewer, viewerId := some "0" })],
    closedConns := [], uuidCounter := 1 }

/-- Whether an action is an error message sent to the given connection. -/
def isErrorSendTo (ws : Nat) (a : Action) : Bool :=
  match a with
  | Action.send c (SMsg.error _) => decide (c = ws)
  | _ => false

/-- C3 counterexample: connection 2 already holds role viewer, yet its second
register message is processed — its role is overwritten to broadcaster, the
registry's broadcaster slot changes, and no error message is sent to it. -/
theorem c3_reregister_counterexample :
    (reregisterState.getData 2).role = some Role.viewer ∧
    ((handleMessage reregisterState 2 (RawMsg.register Role.broadcaster)).1.getData 2).role =
      some Role.broadcaster ∧
    (handleMessage reregisterState 2 (RawMsg.register Role.broadcaster)).1.broadcasterSocket =
      some 2 ∧
    (handleMessage reregisterState 2 (RawMsg.register Role.broadcaster)).2.all
      (fun a => !isErrorSendTo 2 a) = true := by
  decide

lemma finish_getData (st : ServerState) (ws : Nat) (pre : List Action) :
    (finishRegisterBroadcaster st ws pre).1.getData ws =
      { st.getData ws with role := some Role.broadcaster } :=
  getData_setData_self st ws _

lemma handleRegisterViewer_getData (st : ServerState) (ws : Nat) :
    (handleRegisterViewer st ws).1.getData ws =
      { role := some Role.viewer, viewerId := some (toString st.uuidCounter) } :=
  getData_setData_self { st with uuidCounter := st.uuidCounter + 1 } ws _

lemma finish_trace (st : ServerState) (ws : Nat) (pre : List Action) :
    (finishRegisterBroadcaster st ws pre).2 =
      pre ++ Action.send ws SMsg.registeredB ::
        st.viewerSockets.map (fun p => Action.send ws (SMsg.viewerJoined p.1)) := rfl

lemma handleRegisterViewer_trace (st : ServerState) (ws : Nat) :
    (handleRegisterViewer st ws).2 =
      Action.send ws (SMsg.registeredV (toString st.uuidCounter) st.broadcasterSocket.isSome) ::
        (match st.broadcasterSocket with
         | some b => [Action.send b (SMsg.viewerJoined (toString st.uuidCounter))]
         | none => []) ++ broadcastViewerCount (handleRegisterViewer st ws).1 := rfl

lemma isErrorSendTo_false_of_ne (ws : Nat) (a : Action)
    (h : ∀ c e, a ≠ Action.send c (SMsg.error e)) : isErrorSendTo ws a = false := by
  cases a with
  | close c => rfl
  | send c m =>
    cases m
    case error e => exact absurd rfl (h c e)
    all_goals rfl

lemma isErrorSendTo_false_of_target_ne (ws c : Nat) (m : SMsg) (h : c ≠ ws) :
    isErrorSendTo ws (Action.send c m) = false := by
  cases m
  case error e => simp [isErrorSendTo, h]
  all_goals rfl

lemma regTail_no_error (ws0 ws : Nat) (l : List (String × Nat)) (a : Action)
    (h : a ∈ Action.send ws SMsg.registeredB ::
      l.map (fun p => Action.send ws (SMsg.viewerJoined p.1))) :
    isErrorSendTo ws0 a = false := by
  refine isErrorSendTo_false_of_ne ws0 a ?_
  intro c e
  rcases List.mem_cons.1 h with rfl | h2
  · simp
  · obtain ⟨p, hp, rfl⟩ := List.mem_map.1 h2
    simp

lemma handleRegisterViewer_no_error_to (st : ServerState) (ws0 ws : Nat) (a : Action)
    (h : a ∈ (handleRegisterViewer st ws).2) : isErrorSendTo ws0 a = false := by
  rw [handleRegisterViewer_trace] at h
  refine isErrorSendTo_false_of_ne ws0 a ?_
  intro c e
  rcases List.mem_cons.1 h with rfl | h2
  · simp
  · rcases List.mem_append.1 h2 with h3 | h4
    · cases hb : st.broadcasterSocket with
      | none => simp [hb] at h3
      | some b =>
        simp only [hb] at h3
        rcases List.mem_singleton.1 h3 with rfl
        simp
    · obtain ⟨c2, rfl⟩ := mem_bvc_shape _ _ h4
      simp

lemma handleRegisterBroadcaster_no_error_to (st : ServerState) (ws : Nat) (a : Action)
    (hnotself : st.broadcasterSocket ≠ some ws ∨ st.isOpen ws = false)
    (h : a ∈ (handleRegisterBroadcaster st ws).2) : isErrorSendTo ws a = false := by
  unfold handleRegisterBroadcaster at h
  cases hb : st.broadcasterSocket with
  | none =>
    simp only [hb] at h
    rw [finish_trace, List.nil_append] at h
    exact regTail_no_error ws ws _ a h
  | some old =>
    simp only [hb] at h
    by_cases ho : st.isOpen old = true
    · rw [if_pos ho, finish_trace] at h
      have hold : old ≠ ws := by
        rcases hnotself with hn | hn
        · intro he
          exact hn (he ▸ hb)
        · intro he
          rw [he, hn] at ho
          cases ho
      rcases List.mem_append.1 h with h1 | h2
      · rcases List.mem_cons.1 h1 with rfl | h1b
        · exact isErrorSendTo_false_of_target_ne ws old _ hold
        · rcases List.mem_singleton.1 h1b with rfl
          rfl
      · exact regTail_no_error ws ws _ a h2
    · rw [if_neg ho, finish_trace, List.nil_append] at h
      exact regTail_no_error ws ws _ a h

/-- C3 amended: a register message from a connection whose role is already
assigned is not rejected; the message handler dispatches to handleRegister
unconditionally and the connection's role is overwritten with the newly
requested role.  The sender itself receives no error message, except in the
one corner where it is the currently registered broadcaster with an open
channel re-registering as broadcaster: then, being the incumbent, it is sent
the takeover error before being reinstalled. -/
theorem c3_register_unguarded (st : ServerState) (ws : Nat) (r : Role)
    (_h : (st.getData ws).role ≠ none) :
    handleMessage st ws (RawMsg.register r) = handleRegister st ws r ∧
    ((handleRegister st ws r).1.getData ws).role = some r ∧
    ((st.broadcasterSocket ≠ some ws ∨ st.isOpen ws = false ∨ r = Role.viewer) →
      ((handleRegister st ws r).2.all fun a => !isErrorSendTo ws a) = true) ∧
    (st.broadcasterSocket = some ws → st.isOpen ws = true → r = Role.broadcaster →
      Action.send ws (SMsg.error takeoverMessage) ∈ (handleRegister st ws r).2) := by
  refine ⟨rfl, ?_, ?_, ?_⟩
  · cases r with
    | broadcaster =>
      show ((handleRegisterBroadcaster st ws).1.getData ws).role = some Role.broadcaster
      unfold handleRegisterBroadcaster
      split
      · split
        · rw [finish_getData]
        · rw [finish_getData]
      · rw [finish_getData]
    | viewer =>
      show ((handleRegisterViewer st ws).1.getData ws).role = some Role.viewer
      rw [handleRegisterViewer_getData]
  · intro hside
    rw [List.all_eq_true]
    intro a ha
    have hfalse : isErrorSendTo ws a = false := by
      cases r with
      | viewer => exact handleRegisterViewer_no_error_to st ws ws a ha
      | broadcaster =>
        have hnotself : st.broadcasterSocket ≠ some ws ∨ st.isOpen ws = false := by
          rcases hside with h1 | h2 | h3
          · exact Or.inl h1
          · exact Or.inr h2
          · cases h3
        exact handleRegisterBroadcaster_no_error_to st ws a hnotself ha
    simp [hfalse]
  · intro hslot hopen hr
    subst hr
    show Action.send ws (SMsg.error takeoverMessage) ∈ (handleRegisterBroadcaster st ws).2
    unfold handleRegisterBroadcaster
    simp only [hslot]
    rw [if_pos hopen, finish_trace]
    exact List.mem_append_left _ (List.mem_cons_self _ _)

/-- Registry whose only connection is broadcaster 1, with an open channel. -/
def selfTakeoverState : ServerState :=
  { broadcasterSocket := some 1, viewerSockets := [],
    connData := [(1, { role := some Role.broadcaster, viewerId := none })],
    closedConns := [], uuidCounter := 0 }

/-- Witness for C3's amended statement: the registered viewer of
reregisterState re-registers as a viewer — role reassigned, no error to the
sender — and the open broadcaster of selfTakeoverState re-registering as
broadcaster is sent the takeover error. -/
theorem c3_register_unguarded_witness :
    (handleMessage reregisterState 2 (RawMsg.register Role.viewer) =
      handleRegister reregisterState 2 Role.viewer ∧
     ((handleRegister reregisterState 2 Role.viewer).1.getData 2).role = some Role.viewer ∧
     ((handleRegister reregisterState 2 Role.viewer).2.all fun a => !isErrorSendTo 2 a) = true) ∧
    Action.send 1 (SMsg.error takeoverMessage) ∈
      (handleRegister selfTakeoverState 1 Role.broadcaster).2 := by
  have h1 := c3_register_unguarded reregisterState 2 Role.viewer (by decide)
  have h2 := c3_register_unguarded selfTakeoverState 1 Role.broadcaster (by decide)
  exact ⟨⟨h1.1, h1.2.1, h1.2.2.1 (Or.inr (Or.inr rfl))⟩, h2.2.2.2 rfl rfl rfl⟩

/-- Registry with broadcaster 1 and viewer 2 registered under identifier "a". -/
def answerMismatchState : ServerState :=
  { broadcasterSocket := some 1, viewerSockets := [("a", 2)],
    connData := [(1, { role := some Role.broadcaster, viewerId := none }),
                 (2, { role := some Role.viewer, viewerId := some "a" })],
    closedConns := [], uuidCounter := 0 }

/-- C4 counterexample: viewer 2 owns identifier "a" but sends an answer naming
"b"; the relay forwards it to the broadcaster anyway, so the claimed
mismatch refusal does not exist. -/
theorem c4_answer_mismatch_counterexample :
    (answerMismatchState.getData 2).viewerId = some "a" ∧
    ("b" : String) ≠ "a" ∧
    (handleMessage answerMismatchState 2 (RawMsg.answer "b" "s")).2 =
      [Action.send 1 (SMsg.answer "b" "s")] := by
  decide

/-- C4 amended: an answer from a registered viewer is forwarded to the
registered broadcaster with the viewerId exactly as given in the message; the
routing engine performs no comparison with the sender's own viewerId. -/
theorem c4_answer_forwarded_unchecked (st : ServerState) (ws b : Nat) (vid sdp : String)
    (h : viewerOk (st.getData ws) = true) (hb : st.broadcasterSocket = some b) :
    (handleMessage st ws (RawMsg.answer vid sdp)).1 = st ∧
    (handleMessage st ws (RawMsg.answer vid sdp)).2 = [Action.send b (SMsg.answer vid sdp)] := by
  constructor
  · simp [handleMessage, h]
  · simp [handleMessage, h, forwardAnswer, hb]

/-- Witness for C4's amended statement at the mismatch state. -/
theorem c4_answer_forwarded_unchecked_witness :
    (handleMessage answerMismatchState 2 (RawMsg.answer "b" "s")).1 = answerMismatchState ∧
    (handleMessage answerMismatchState 2 (RawMsg.answer "b" "s")).2 =
      [Action.send 1 (SMsg.answer "b" "s")] :=
  c4_answer_forwarded_unchecked answerMismatchState 2 1 "b" "s" (by decide) rfl

/-- C5: an offer from the registered broadcaster leaves the registry unchanged
and results in exactly one send — the unmodified session description to the
named viewer when that viewer is registered, and viewer-missing back to the
broadcaster otherwise. -/
theorem c5_offer_routing (st : ServerState) (b vws : Nat) (vid sdp : String)
    (hb : st.broadcasterSocket = some b)
    (hrole : (st.getData b).role = some Role.broadcaster) :
    (handleMessage st b (RawMsg.offer vid sdp)).1 = st ∧
    (mapGet st.viewerSockets vid = some vws →
      (handleMessage st b (RawMsg.offer vid sdp)).2 = [Action.send vws (SMsg.offer vid sdp)]) ∧
    (mapGet st.viewerSockets vid = none →
      (handleMessage st b (RawMsg.offer vid sdp)).2 = [Action.send b (SMsg.viewerMissing vid)]) := by
  refine ⟨?_, ?_, ?_⟩
  · simp [handleMessage, hrole]
  · intro hv
    simp [handleMessage, hrole, forwardOffer, hv]
  · intro hv
    simp [handleMessage, hrole, forwardOffer, hv, hb]

/-- Registry with broadcaster 1 and viewer 2 under identifier "0". -/
def offerState : ServerState :=
  { broadcasterSocket := some 1, viewerSockets := [("0", 2)],
    connData := [(1, { role := some Role.broadcaster, viewerId := none }),
                 (2, { role := some Role.viewer, viewerId := some "0" })],
    closedConns := [], uuidCounter := 1 }

/-- Witness for C5: broadcaster 1 offers to registered viewer "0". -/
theorem c5_offer_routing_witness :
    (handleMessage offerState 1 (RawMsg.offer "0" "sdpA")).1 = offerState ∧
    (handleMessage offerState 1 (RawMsg.offer "0" "sdpA")).2 =
      [Action.send 2 (SMsg.offer "0" "sdpA")] := by
  have h := c5_offer_routing offerState 1 2 "0" "sdpA" rfl (by decide)
  exact ⟨h.1, h.2.1 (by decide)⟩

lemma handleClose_broadcaster (st : ServerState) (b : Nat)
    (hrole : (st.getData b).role = some Role.broadcaster) :
    handleClose st b =
      ({ st with
          broadcasterSocket := none,
          viewerSockets := [],
          closedConns := st.viewerSockets.map Prod.snd ++ st.closedConns },
       endedCloseActs st.viewerSockets ++
         broadcastViewerCount
           { st with
             broadcasterSocket := none,
             viewerSockets := [],
             closedConns := st.viewerSockets.map Prod.snd ++ st.closedConns }) := by
  simp [handleClose, hrole]

lemma handleClose_viewer (st : ServerState) (v : Nat) (vid : String)
    (hdata : st.getData v = { role := some Role.viewer, viewerId := some vid })
    (hvne : vid ≠ "") :
    handleClose st v =
      ({ st with viewerSockets := mapDelete st.viewerSockets vid },
       (match st.broadcasterSocket with
        | some b => [Action.send b (SMsg.viewerLeft vid)]
        | none => []) ++
         broadcastViewerCount { st with viewerSockets := mapDelete st.viewerSockets vid }) := by
  simp [handleClose, hdata, hvne]

lemma stopBroadcast_eq (st : ServerState) (b : Nat) (hb : st.broadcasterSocket = some b) :
    stopBroadcast st =
      ({ st with
          viewerSockets := [],
          closedConns := st.viewerSockets.map Prod.snd ++ st.closedConns },
       endedCloseActs st.viewerSockets ++ Action.send b SMsg.stopped ::
         broadcastViewerCount
           { st with
             viewerSockets := [],
             closedConns := st.viewerSockets.map Prod.snd ++ st.closedConns }) := by
  simp [stopBroadcast, hb]

lemma bvc_cleared (st : ServerState) (b : Nat) (hb : st.broadcasterSocket = some b)
    (ho : st.isOpen b = true) (hv : st.viewerSockets = []) :
    broadcastViewerCount st = [Action.send b (SMsg.viewerCount 0)] := by
  unfold broadcastViewerCount
  rw [hv]
  simp [hb, ho]

lemma bvc_dead (st : ServerState) (hb : st.broadcasterSocket = none)
    (hv : st.viewerSockets = []) : broadcastViewerCount st = [] := by
  unfold broadcastViewerCount
  rw [hv]
  simp [hb]

lemma viewerLeft_not_mem_bvc (st : ServerState) (b : Nat) (vid : String) :
    Action.send b (SMsg.viewerLeft vid) ∉ broadcastViewerCount st := by
  intro h
  obtain ⟨c, hc⟩ := mem_bvc_shape st _ h
  simp at hc

lemma stopped_not_mem_bvc (st : ServerState) (b : Nat) :
    Action.send b SMsg.stopped ∉ broadcastViewerCount st := by
  intro h
  obtain ⟨c, hc⟩ := mem_bvc_shape st _ h
  simp at hc

lemma close_not_mem_bvc (st : ServerState) (b : Nat) :
    Action.close b ∉ broadcastViewerCount st := by
  intro h
  obtain ⟨c, hc⟩ := mem_bvc_shape st _ h
  simp at hc

/-- C6: when the registered broadcaster's channel closes, every registered
viewer is sent broadcaster-ended exactly once and forcibly closed, the
broadcaster slot is cleared, the viewer map becomes empty, and the trace ends
with the viewer-count broadcast of the cleared registry, whose count is 0. -/
theorem c6_broadcaster_close_cascade (st : ServerState) (b : Nat)
    (_hb : st.broadcasterSocket = some b)
    (hrole : (st.getData b).role = some Role.broadcaster)
    (hconns : (st.viewerSockets.map Prod.snd).Nodup) :
    (step st (Event.close b)).1.broadcasterSocket = none ∧
    (step st (Event.close b)).1.viewerSockets = [] ∧
    (∀ p ∈ st.viewerSockets,
      countAct (step st (Event.close b)).2 (Action.send p.2 SMsg.broadcasterEnded) = 1 ∧
      Action.close p.2 ∈ (step st (Event.close b)).2 ∧
      (step st (Event.close b)).1.isOpen p.2 = false) ∧
    (step st (Event.close b)).2 =
      endedCloseActs st.viewerSockets ++
        broadcastViewerCount (step st (Event.close b)).1 ∧
    (step st (Event.close b)).1.viewerSockets.length = 0 := by
  have hrole2 : (({ st with closedConns := b :: st.closedConns } : ServerState).getData b).role =
      some Role.broadcaster := hrole
  have hstep : step st (Event.close b) =
      handleClose { st with closedConns := b :: st.closedConns } b := rfl
  rw [hstep, handleClose_broadcaster _ _ hrole2]
  have hbvc : broadcastViewerCount
      { st with
        broadcasterSocket := none,
        viewerSockets := [],
        closedConns := st.viewerSockets.map Prod.snd ++ (b :: st.closedConns) } = [] :=
    bvc_dead _ rfl rfl
  refine ⟨rfl, rfl, ?_, ?_, rfl⟩
  · intro p hp
    refine ⟨?_, ?_, ?_⟩
    · rw [hbvc, List.append_nil]
      exact countAct_endedClose_send_one _ _ hconns (List.mem_map_of_mem _ hp)
    · exact List.mem_append_left _ (mem_endedCloseActs_close _ _ hp)
    · rw [isOpen_eq_false_iff]
      exact List.mem_append_left _ (List.mem_map_of_mem _ hp)
  · rw [hbvc]

/-- Registry with broadcaster 1 and viewers 2 and 3 under identifiers "0" and
"1", all channels open. -/
def closeCascadeState : ServerState :=
  { broadcasterSocket := some 1, viewerSockets := [("0", 2), ("1", 3)],
    connData := [(1, { role := some Role.broadcaster, viewerId := none }),
                 (2, { role := some Role.viewer, viewerId := some "0" }),
                 (3, { role := some Role.viewer, viewerId := some "1" })],
    closedConns := [], uuidCounter := 2 }

/-- Witness for C6: broadcaster 1 of closeCascadeState closes; viewer 2 gets
exactly one broadcaster-ended, is closed, and the registry empties. -/
theorem c6_broadcaster_close_cascade_witness :
    (step closeCascadeState (Event.close 1)).1.broadcasterSocket = none ∧
    (step closeCascadeState (Event.close 1)).1.viewerSockets = [] ∧
    countAct (step closeCascadeState (Event.close 1)).2
      (Action.send 2 SMsg.broadcasterEnded) = 1 ∧
    Action.close 2 ∈ (step closeCascadeState (Event.close 1)).2 ∧
    (step closeCascadeState (Event.close 1)).1.isOpen 2 = false := by
  have h := c6_broadcaster_close_cascade closeCascadeState 1 rfl (by decide) (by decide)
  have hp := h.2.2.1 ("0", 2) (by decide)
  exact ⟨h.1, h.2.1, hp.1, hp.2.1, hp.2.2⟩

/-- C7: when registered viewer V closes, V's entry leaves the registry (the
map shrinks by one), the broadcaster receives exactly one viewer-left naming
V, and the decremented viewer count is sent to every remaining viewer and to
the broadcaster. -/
theorem c7_viewer_close_cascade (st : ServerState) (v b : Nat) (vid : String)
    (hdata : st.getData v = { role := some Role.viewer, viewerId := some vid })
    (hvne : vid ≠ "")
    (hmem : (vid, v) ∈ st.viewerSockets)
    (hkeys : (st.viewerSockets.map Prod.fst).Nodup)
    (hb : st.broadcasterSocket = some b)
    (hopen : st.isOpen b = true)
    (hbv : b ≠ v) :
    mapGet (step st (Event.close v)).1.viewerSockets vid = none ∧
    (step st (Event.close v)).1.viewerSockets.length + 1 = st.viewerSockets.length ∧
    countAct (step st (Event.close v)).2 (Action.send b (SMsg.viewerLeft vid)) = 1 ∧
    (∀ p ∈ (step st (Event.close v)).1.viewerSockets,
      Action.send p.2 (SMsg.viewerCount (step st (Event.close v)).1.viewerSockets.length) ∈
        (step st (Event.close v)).2) ∧
    Action.send b (SMsg.viewerCount (step st (Event.close v)).1.viewerSockets.length) ∈
      (step st (Event.close v)).2 := by
  have hdata2 : (({ st with closedConns := v :: st.closedConns } : ServerState).getData v) =
      { role := some Role.viewer, viewerId := some vid } := hdata
  have hstep : step st (Event.close v) =
      handleClose { st with closedConns := v :: st.closedConns } v := rfl
  rw [hstep, handleClose_viewer _ _ _ hdata2 hvne]
  simp only [hb]
  have hopen1 : (({ st with
      closedConns := v :: st.closedConns,
      viewerSockets := mapDelete st.viewerSockets vid } : ServerState)).isOpen b = true := by
    rw [isOpen_eq_true_iff]
    intro hmem2
    rcases List.mem_cons.1 hmem2 with he | hm2
    · exact hbv he
    · exact (isOpen_eq_true_iff st b).1 hopen hm2
  refine ⟨?_, ?_, ?_, ?_, ?_⟩
  · exact mapGet_mapDelete_self _ _ hkeys
  · exact mapDelete_length _ _ (List.mem_map_of_mem Prod.fst hmem)
  · rw [countAct_append, countAct_singleton,
      countAct_eq_zero _ _ (viewerLeft_not_mem_bvc _ b vid)]
  · intro p hp
    exact List.mem_append_right _ (bvc_mem_viewer _ p hp)
  · refine List.mem_append_right _ ?_
    exact bvc_mem_broadcaster _ b rfl hopen1

/-- Witness for C7: viewer 2 (identifier "0") of closeCascadeState closes. -/
theorem c7_viewer_close_cascade_witness :
    mapGet (step closeCascadeState (Event.close 2)).1.viewerSockets "0" = none ∧
    (step closeCascadeState (Event.close 2)).1.viewerSockets.length + 1 =
      closeCascadeState.viewerSockets.length ∧
    countAct (step closeCascadeState (Event.close 2)).2
      (Action.send 1 (SMsg.viewerLeft "0")) = 1 ∧
    Action.send 3 (SMsg.viewerCount
      (step closeCascadeState (Event.close 2)).1.viewerSockets.length) ∈
      (step closeCascadeState (Event.close 2)).2 ∧
    Action.send 1 (SMsg.viewerCount
      (step closeCascadeState (Event.close 2)).1.viewerSockets.length) ∈
      (step closeCascadeState (Event.close 2)).2 := by
  have h := c7_viewer_close_cascade closeCascadeState 2 1 "0" (by decide) (by decide)
    (by decide) (by decide) rfl (by decide) (by decide)
  exact ⟨h.1, h.2.1, h.2.2.1, h.2.2.2.1 ("1", 3) (by decide), h.2.2.2.2⟩

/-- C8: a stop request from the registered broadcaster ends and closes every
viewer and clears the map exactly as a broadcaster close would, while the
broadcaster keeps its slot and per-connection data, its channel stays open
and is never closed by the handler, and it receives the stopped
confirmation. -/
theorem c8_stop_preserves_broadcaster (st : ServerState) (b : Nat)
    (hb : st.broadcasterSocket = some b)
    (hrole : (st.getData b).role = some Role.broadcaster)
    (hbnotv : b ∉ st.viewerSockets.map Prod.snd)
    (hopen : st.isOpen b = true) :
    (handleMessage st b RawMsg.stop).1.broadcasterSocket = some b ∧
    (handleMessage st b RawMsg.stop).1.connData = st.connData ∧
    (handleMessage st b RawMsg.stop).1.viewerSockets = [] ∧
    (handleMessage st b RawMsg.stop).1.isOpen b = true ∧
    Action.close b ∉ (handleMessage st b RawMsg.stop).2 ∧
    Action.send b SMsg.stopped ∈ (handleMessage st b RawMsg.stop).2 ∧
    (∀ p ∈ st.viewerSockets,
      Action.send p.2 SMsg.broadcasterEnded ∈ (handleMessage st b RawMsg.stop).2 ∧
      Action.close p.2 ∈ (handleMessage st b RawMsg.stop).2 ∧
      (handleMessage st b RawMsg.stop).1.isOpen p.2 = false) := by
  have hstop : handleMessage st b RawMsg.stop = stopBroadcast st := by
    simp [handleMessage, hrole]
  rw [hstop, stopBroadcast_eq st b hb]
  have hopen1 : (({ st with
      viewerSockets := [],
      closedConns := st.viewerSockets.map Prod.snd ++ st.closedConns } : ServerState)).isOpen b =
      true := by
    rw [isOpen_eq_true_iff]
    intro hmem2
    rcases List.mem_append.1 hmem2 with hm | hm
    · exact hbnotv hm
    · exact (isOpen_eq_true_iff st b).1 hopen hm
  refine ⟨hb, rfl, rfl, hopen1, ?_, ?_, ?_⟩
  · intro hmem
    rcases List.mem_append.1 hmem with hm | hm
    · exact close_not_mem_endedCloseActs _ _ hbnotv hm
    · rcases List.mem_cons.1 hm with he | hm2
      · cases he
      · exact close_not_mem_bvc _ b hm2
  · exact List.mem_append_right _ (List.mem_cons_self _ _)
  · intro p hp
    refine ⟨?_, ?_, ?_⟩
    · exact List.mem_append_left _ (mem_endedCloseActs_send _ _ hp)
    · exact List.mem_append_left _ (mem_endedCloseActs_close _ _ hp)
    · rw [isOpen_eq_false_iff]
      exact List.mem_append_left _ (List.mem_map_of_mem _ hp)

/-- Witness for C8: broadcaster 1 of closeCascadeState sends stop. -/
theorem c8_stop_preserves_broadcaster_witness :
    (handleMessage closeCascadeState 1 RawMsg.stop).1.broadcasterSocket = some 1 ∧
    (handleMessage closeCascadeState 1 RawMsg.stop).1.viewerSockets = [] ∧
    (handleMessage closeCascadeState 1 RawMsg.stop).1.isOpen 1 = true ∧
    Action.close 1 ∉ (handleMessage closeCascadeState 1 RawMsg.stop).2 ∧
    Action.send 1 SMsg.stopped ∈ (handleMessage closeCascadeState 1 RawMsg.stop).2 ∧
    Action.send 2 SMsg.broadcasterEnded ∈ (handleMessage closeCascadeState 1 RawMsg.stop).2 := by
  have h := c8_stop_preserves_broadcaster closeCascadeState 1 rfl (by decide) (by decide)
    (by decide)
  exact ⟨h.1, h.2.2.1, h.2.2.2.1, h.2.2.2.2.1, h.2.2.2.2.2.1,
    (h.2.2.2.2.2.2 ("0", 2) (by decide)).1⟩

/-- C10: on a stop request from the registered broadcaster, the full issued
trace is the per-viewer ended/close cascade followed by the stopped
confirmation and then a viewer-count message with count 0 to the
broadcaster — so the zero count is sent, after the stopped message. -/
theorem c10_stop_sends_zero_count (st : ServerState) (b : Nat)
    (hb : st.broadcasterSocket = some b)
    (hrole : (st.getData b).role = some Role.broadcaster)
    (hbnotv : b ∉ st.viewerSockets.map Prod.snd)
    (hopen : st.isOpen b = true) :
    (handleMessage st b RawMsg.stop).2 =
      endedCloseActs st.viewerSockets ++
        [Action.send b SMsg.stopped, Action.send b (SMsg.viewerCount 0)] := by
  have hstop : handleMessage st b RawMsg.stop = stopBroadcast st := by
    simp [handleMessage, hrole]
  rw [hstop, stopBroadcast_eq st b hb]
  have hopen1 : (({ st with
      viewerSockets := [],
      closedConns := st.viewerSockets.map Prod.snd ++ st.closedConns } : ServerState)).isOpen b =
      true := by
    rw [isOpen_eq_true_iff]
    intro hmem2
    rcases List.mem_append.1 hmem2 with hm | hm
    · exact hbnotv hm
    · exact (isOpen_eq_true_iff st b).1 hopen hm
  have hbvc : broadcastViewerCount
      { st with
        viewerSockets := [],
        closedConns := st.viewerSockets.map Prod.snd ++ st.closedConns } =
      [Action.send b (SMsg.viewerCount 0)] :=
    bvc_cleared _ b hb hopen1 rfl
  simp [hbvc]

/-- Witness for C10 at closeCascadeState. -/
theorem c10_stop_sends_zero_count_witness :
    (handleMessage closeCascadeState 1 RawMsg.stop).2 =
      endedCloseActs closeCascadeState.viewerSockets ++
        [Action.send 1 SMsg.stopped, Action.send 1 (SMsg.viewerCount 0)] :=
  c10_stop_sends_zero_count closeCascadeState 1 rfl (by decide) (by decide) (by decide)

/-- C9 counterexample: a frame that parses as JSON but has an unknown type is
silently ignored — no error message is sent to the sender, although the
claim requires one for every message that is not a known shape. -/
theorem c9_unknown_message_counterexample :
    handleMessage initialState 1 RawMsg.unknownType = (initialState, []) := rfl

/-- C9 amended: a frame on which JSON parsing throws, and every
role-precondition failure, produce exactly one error message to the offending
sender with the registry unchanged and no other send; but a JSON frame of
unknown type is silently dropped with no error message at all. -/
theorem c9_error_handling (st : ServerState) (ws : Nat) :
    (∀ e, handleMessage st ws (RawMsg.invalid e) = (st, [Action.send ws (SMsg.error e)])) ∧
    (handleMessage st ws RawMsg.unknownType = (st, [])) ∧
    (∀ vid sdp, (st.getData ws).role ≠ some Role.broadcaster →
      handleMessage st ws (RawMsg.offer vid sdp) =
        (st, [Action.send ws (SMsg.error onlyBroadcasterMessage)])) ∧
    (∀ vid sdp, viewerOk (st.getData ws) = false →
      handleMessage st ws (RawMsg.answer vid sdp) =
        (st, [Action.send ws (SMsg.error onlyViewerMessage)])) ∧
    (∀ vid cand, (st.getData ws).role ≠ some Role.broadcaster →
      handleMessage st ws (RawMsg.candidate vid cand Role.broadcaster) =
        (st, [Action.send ws (SMsg.error onlyBroadcasterMessage)])) ∧
    (∀ vid cand, viewerOk (st.getData ws) = false →
      handleMessage st ws (RawMsg.candidate vid cand Role.viewer) =
        (st, [Action.send ws (SMsg.error onlyViewerMessage)])) ∧
    ((st.getData ws).role ≠ some Role.broadcaster →
      handleMessage st ws RawMsg.stop =
        (st, [Action.send ws (SMsg.error onlyBroadcasterMessage)])) := by
  refine ⟨fun e => rfl, rfl, ?_, ?_, ?_, ?_, ?_⟩
  · intro vid sdp h
    simp [handleMessage, h]
  · intro vid sdp h
    simp [handleMessage, h]
  · intro vid cand h
    simp [handleMessage, h]
  · intro vid cand h
    simp [handleMessage, h]
  · intro h
    simp [handleMessage, h]

/-- Witness for C9's amended statement: an unparseable frame and an offer from
an unregistered connection each draw one error to the sender, with the
registry unchanged. -/
theorem c9_error_handling_witness :
    handleMessage initialState 1 (RawMsg.invalid "Unexpected token") =
      (initialState, [Action.send 1 (SMsg.error "Unexpected token")]) ∧
    handleMessage initialState 1 (RawMsg.offer "0" "sdpA") =
      (initialState, [Action.send 1 (SMsg.error onlyBroadcasterMessage)]) :=
  ⟨(c9_error_handling initialState 1).1 "Unexpected token",
   (c9_error_handling initialState 1).2.2.1 "0" "sdpA" (by decide)⟩

end Relay
